import Mathlib

/-!
Verification development for the audio-transcriber repository.

The repository has two variants of the same pipeline:
  * a command-line variant (`audio_transcriber.py`), modelled below by the
    definitions without a `gui_` prefix, and
  * a desktop-GUI variant (`audio_transcriber_gui.py`), modelled by the
    definitions with a `gui_` prefix.

External library calls (pydub decoding/export, `split_on_silence`, the
Google / Sphinx recognizers, the filesystem) are modelled as oracle inputs:
each call site of the Python code receives the outcome of the corresponding
external call as an explicit argument (a `Bool` success flag, an
`Option String` result, or a function-valued oracle).  The control flow of the Python code itself — the part the specification describes — is translated line by
line.  A Python function that can let an exception escape to its caller is
modelled in the `Except` monad; a Python function that catches everything is
modelled as a total function.

Waveforms (`pydub.AudioSegment`) are modelled as `List Int`: one list element
per millisecond of audio, since the `len`/slicing interface of pydub is in
milliseconds.  Text is `String`.
-/

/-! ### Python string/path primitives used by the scripts -/

/-- Boolean test that the first list is a prefix of the second
(character-wise, used to implement the suffix test below). -/
def startsWithChars : List Char → List Char → Bool
  | [], _ => true
  | _ :: _, [] => false
  | a :: as, b :: bs => a == b && startsWithChars as bs

/-- Model of the Python method `str.endswith(suffix)`: `suffix` read backwards is a
prefix of `s` read backwards. -/
def pyEndsWith (s suffix : String) : Bool :=
  startsWithChars suffix.data.reverse s.data.reverse

/-- Characters after the last path separator. -/
def afterLastSep (cs : List Char) : List Char :=
  (cs.reverse.takeWhile (fun c => c != '/')).reverse

/-- Model of `os.path.basename` on POSIX paths: the part after the last
path separator. -/
def basename (p : String) : String :=
  String.mk (afterLastSep p.data)

/-- Model of `os.path.splitext(...)[0]` applied to a basename: drop the
extension at the last dot, unless every character before that dot is itself
a dot (the CPython rule for names such as `.bashrc`). -/
def splitextRoot (s : String) : String :=
  let cs := s.data
  match cs.reverse.findIdx? (fun c => c == '.') with
  | none => s
  | some k =>
    let root := cs.take (cs.length - 1 - k)
    if root.any (fun c => c != '.') then String.mk root else s

/-- Model of the Python method `str.strip()`: remove leading and trailing whitespace. -/
def pyStrip (s : String) : String :=
  String.mk (((s.data.dropWhile Char.isWhitespace).reverse.dropWhile
    Char.isWhitespace).reverse)

/-- Python truthiness of an optional string argument (`None` and `""` are
falsy). -/
def pyTruthy : Option String → Bool
  | none => false
  | some s => decide (s ≠ "")

theorem startsWithChars_self_append (as bs : List Char) :
    startsWithChars as (as ++ bs) = true := by
  induction as with
  | nil => rfl
  | cons a as ih => simp [startsWithChars, ih]

theorem data_append (s t : String) : (s ++ t).data = s.data ++ t.data := by
  cases s; cases t; rfl

/-- Any path built by appending the converted-file suffix ends in `.wav`. -/
theorem pyEndsWith_converted (s : String) :
    pyEndsWith (s ++ "_converted.wav") ".wav" = true := by
  have h : (s ++ "_converted.wav").data.reverse
      = ".wav".data.reverse ++ ("_converted".data.reverse ++ s.data.reverse) := by
    rw [data_append]
    have h2 : "_converted.wav".data = "_converted".data ++ ".wav".data := rfl
    rw [h2, List.reverse_append, List.reverse_append, List.append_assoc]
  rw [pyEndsWith, h]
  exact startsWithChars_self_append _ _

/-! ### Format normalizer (`convert_to_wav`)

CLI variant: `audio_transcriber.py` lines 117–167.  The outcomes of the
external calls are collected in `ConvAttempts`:
  * `pydubOk`     — `AudioSegment.from_file` + `export` succeed;
  * `ffmpegOk`    — the `ffmpeg` `subprocess.check_call` succeeds;
  * `tempExists`  — `os.path.exists(temp_output_path)`;
  * `tempSize`    — `os.path.getsize(temp_output_path)`;
  * `renameOk`    — `os.rename` succeeds (a failed rename raises and is
    caught by the backup `except`, which returns the original path).
-/

structure ConvAttempts where
  pydubOk : Bool
  ffmpegOk : Bool
  tempExists : Bool
  tempSize : Nat
  renameOk : Bool
deriving Repr, DecidableEq

/-- The `f"{filename}_converted.wav"` output name of `convert_to_wav`
(both variants), where `filename = os.path.splitext(os.path.basename(p))[0]`. -/
def convertedName (audio_path : String) : String :=
  splitextRoot (basename audio_path) ++ "_converted.wav"

/-- CLI `convert_to_wav` (`audio_transcriber.py` 117–167).  Every failure is
caught inside the function, so it is total: it returns the converted path on
success of either method and the original path otherwise. -/
def convert_to_wav (audio_path : String) (env : ConvAttempts) : String :=
  if pyEndsWith audio_path ".wav" then audio_path
  else if env.pydubOk then convertedName audio_path
  else if env.ffmpegOk && env.tempExists && decide (0 < env.tempSize)
      && env.renameOk then convertedName audio_path
  else audio_path

/-- GUI `convert_to_wav` (`audio_transcriber_gui.py` 121–138).  There is no
`try`/`except`: a failing `AudioSegment.from_file`/`export` propagates to the
caller, modelled by `Except.error`. -/
def convert_to_wav_gui (audio_path : String) (pydubOk : Bool) :
    Except String String :=
  if pyEndsWith audio_path ".wav" then Except.ok audio_path
  else if pydubOk then Except.ok (convertedName audio_path)
  else Except.error "pydub conversion failed"

/-- C1 (amended): the CLI normalizer behaves exactly as the claim states —
it returns the input unchanged immediately when it already ends in `.wav`;
otherwise it returns the original path exactly when every conversion
attempt fails, and the converted path — which ends in `.wav` and differs
from the input — exactly when the pydub attempt or the ffmpeg fallback
chain succeeds; and it is a total function (no exception reaches its
caller).  The GUI normalizer, by contrast, propagates a conversion failure
to its caller whenever the input does not already end in `.wav`. -/
theorem c1_normalizer_amended (path : String) (env : ConvAttempts) :
    (pyEndsWith path ".wav" = true → convert_to_wav path env = path) ∧
    (convert_to_wav path env = path ∨
      pyEndsWith (convert_to_wav path env) ".wav" = true) ∧
    (pyEndsWith path ".wav" = false → env.pydubOk = false →
      (env.ffmpegOk && env.tempExists && decide (0 < env.tempSize)
        && env.renameOk) = false →
      convert_to_wav path env = path) ∧
    (pyEndsWith path ".wav" = false →
      (env.pydubOk = true ∨
        (env.ffmpegOk && env.tempExists && decide (0 < env.tempSize)
          && env.renameOk) = true) →
      convert_to_wav path env = convertedName path ∧
      convert_to_wav path env ≠ path ∧
      pyEndsWith (convert_to_wav path env) ".wav" = true) ∧
    (pyEndsWith path ".wav" = false →
      convert_to_wav_gui path false = Except.error "pydub conversion failed") := by
  refine ⟨fun h => by simp [convert_to_wav, h], ?_, ?_, ?_, ?_⟩
  · unfold convert_to_wav
    split
    · exact Or.inl rfl
    · split
      · exact Or.inr (pyEndsWith_converted _)
      · split
        · exact Or.inr (pyEndsWith_converted _)
        · exact Or.inl rfl
  · intro h1 h2 h3
    simp [convert_to_wav, h1, h2, h3]
  · intro h1 h2
    have hres : convert_to_wav path env = convertedName path := by
      rcases h2 with hp | hf
      · simp [convert_to_wav, h1, hp]
      · cases hp : env.pydubOk with
        | true => simp [convert_to_wav, h1, hp]
        | false => simp [convert_to_wav, h1, hp, hf]
    refine ⟨hres, ?_, by rw [hres]; exact pyEndsWith_converted _⟩
    intro heq
    have hc : pyEndsWith (convertedName path) ".wav" = true :=
      pyEndsWith_converted _
    rw [hres] at heq
    rw [heq, h1] at hc
    exact Bool.noConfusion hc
  · intro h1
    simp [convert_to_wav_gui, h1]

/-- Witness for the amended C1 theorem at concrete inputs: an input already
in `.wav` form is returned unchanged; with every attempt failing the
original path comes back; a successful pydub attempt and a successful
ffmpeg fallback chain each yield the converted `.wav` path. -/
theorem c1_normalizer_amended_witness :
    convert_to_wav "song.wav" ⟨false, false, false, 0, false⟩ = "song.wav" ∧
    convert_to_wav "song.mp3" ⟨false, false, false, 0, false⟩ = "song.mp3" ∧
    convert_to_wav "song.mp3" ⟨true, false, false, 0, false⟩
      = "song_converted.wav" ∧
    convert_to_wav "song.mp3" ⟨false, true, true, 9, true⟩
      = "song_converted.wav" := by
  refine ⟨(c1_normalizer_amended "song.wav" _).1 (by decide),
    (c1_normalizer_amended "song.mp3" _).2.2.1 (by decide) rfl (by decide),
    ?_, ?_⟩
  · have h := ((c1_normalizer_amended "song.mp3"
      ⟨true, false, false, 0, false⟩).2.2.2.1 (by decide) (Or.inl rfl)).1
    rw [h]
    decide
  · have h := ((c1_normalizer_amended "song.mp3"
      ⟨false, true, true, 9, true⟩).2.2.2.1 (by decide) (Or.inr (by decide))).1
    rw [h]
    decide

/-- C1 counterexample: the claim says `convert_to_wav` never raises an
exception to its caller, but the GUI variant (cited by the claim) propagates
the pydub failure: on input `"song.mp3"` with the conversion library call
failing, the GUI normalizer raises instead of falling back. -/
theorem c1_gui_raises :
    convert_to_wav_gui "song.mp3" false = Except.error "pydub conversion failed" :=
  rfl

/-! ### Segmenter (chunk selection in `transcribe_large_audio`)

The silence-detection call `split_on_silence(sound, min_silence_len,
silence_thresh)` is external (pydub); it is modelled by an oracle
`split : Nat → Int → List (List Int)` mapping the two parameters to the
returned list of slices.
-/

/-- Model of the Python builtin `range(start, stop, step)` for a positive step. -/
def pyRange (start stop step : Nat) : List Nat :=
  (List.range ((stop - start + step - 1) / step)).map (fun k => start + k * step)

/-- The fixed-length chunk list
`[sound[i:i+L] for i in range(0, len(sound), L)]`
(`audio_transcriber.py` line 228, with `L = chunk_length_ms = 30000`). -/
def fixedChunks (L : Nat) (sound : List Int) : List (List Int) :=
  (pyRange 0 sound.length L).map (fun i => (sound.drop i).take L)

/-- The silence-split retry of `audio_transcriber.py` lines 202–221: take the
primary split; if it has fewer than two chunks, recompute with
`min_silence_len=300`, `silence_thresh=-35` and keep the alternative exactly
when it has strictly more chunks. -/
def retryChunks (split : Nat → Int → List (List Int)) (msl : Nat) (st : Int) :
    List (List Int) :=
  let chunks := split msl st
  if chunks.length < 2 then
    let alt := split 300 (-35)
    if alt.length > chunks.length then alt else chunks
  else chunks

/-- Chunk selection of the CLI `transcribe_large_audio`
(`audio_transcriber.py` lines 202–228): the silence-split with retry,
falling back to fixed 30-second chunks when no chunks at all were found. -/
def chooseChunks (sound : List Int) (split : Nat → Int → List (List Int))
    (msl : Nat) (st : Int) : List (List Int) :=
  let chunks := retryChunks split msl st
  if chunks = [] then fixedChunks 30000 sound else chunks

/-- Chunk selection of the GUI `transcribe_large_audio`
(`audio_transcriber_gui.py` lines 152–162): no retry, and the fallback for an
empty split is the single chunk `[sound]` — the whole audio — rather than
fixed 30-second windows. -/
def gui_chooseChunks (sound : List Int) (split : Nat → Int → List (List Int))
    (msl : Nat) (st : Int) : List (List Int) :=
  let chunks := split msl st
  if chunks = [] then [sound] else chunks

theorem ceilDiv_pos_step (L n : Nat) (hL : 0 < L) (hn : 0 < n) :
    (n + L - 1) / L = (n - L + L - 1) / L + 1 := by
  rcases le_or_lt n L with h | h
  · have h1 : n - L = 0 := by omega
    have h2 : (n + L - 1) / L = 1 := by
      apply Nat.div_eq_of_lt_le <;> omega
    have h3 : (L - 1) / L = 0 := Nat.div_eq_of_lt (by omega)
    rw [h1, h2]
    simp [h3]
  · have h1 : n + L - 1 = (n - L + L - 1) + L := by omega
    rw [h1, Nat.add_div_right _ hL]

theorem fixedChunks_cons (L : Nat) (hL : 0 < L) (sound : List Int)
    (hs : sound ≠ []) :
    fixedChunks L sound = sound.take L :: fixedChunks L (sound.drop L) := by
  have hn : 0 < sound.length := List.length_pos.mpr hs
  have hcount : (sound.length + L - 1) / L
      = ((sound.drop L).length + L - 1) / L + 1 := by
    rw [List.length_drop]
    exact ceilDiv_pos_step L sound.length hL hn
  unfold fixedChunks pyRange
  rw [Nat.sub_zero, Nat.sub_zero, hcount, List.range_succ_eq_map]
  simp only [List.map_cons, List.map_map]
  congr 1
  · simp
  · apply List.map_congr_left
    intro k _
    simp only [Function.comp_apply, Function.comp]
    have h2 : sound.drop (0 + Nat.succ k * L) = (sound.drop L).drop (0 + k * L) := by
      rw [List.drop_drop]
      congr 1
      rw [Nat.succ_mul]
      ring
    rw [h2]

theorem fixedChunks_join_aux (L : Nat) (hL : 0 < L) :
    ∀ (c : Nat) (sound : List Int), sound.length ≤ c * L →
      (fixedChunks L sound).flatten = sound := by
  intro c
  induction c with
  | zero =>
    intro sound h
    have : sound = [] := by
      cases sound with
      | nil => rfl
      | cons a l => simp at h
    subst this
    simp [fixedChunks, pyRange, Nat.div_eq_of_lt (by omega : L - 1 < L)]
  | succ c ih =>
    intro sound h
    by_cases hs : sound = []
    · subst hs
      simp [fixedChunks, pyRange, Nat.div_eq_of_lt (by omega : L - 1 < L)]
    · rw [fixedChunks_cons L hL sound hs]
      rw [List.flatten_cons]
      rw [ih (sound.drop L) (by
        rw [List.length_drop]
        have hcl : (c + 1) * L = c * L + L := by ring
        omega)]
      exact List.take_append_drop L sound

/-- The fixed-length fallback reassembles exactly the input waveform. -/
theorem fixedChunks_join (L : Nat) (hL : 0 < L) (sound : List Int) :
    (fixedChunks L sound).flatten = sound :=
  fixedChunks_join_aux L hL sound.length sound
    (Nat.le_mul_of_pos_right _ hL)

theorem fixedChunks_length (L : Nat) (sound : List Int) :
    (fixedChunks L sound).length = (sound.length + L - 1) / L := by
  simp [fixedChunks, pyRange]

/-- C2 (amended): in the CLI segmenter, when silence detection (with the
retry) yields zero slices, fixed 30-second slicing applies: the slice count
is the ceiling of the millisecond duration over 30000 (i.e. of the duration
in seconds over 30), the slices concatenate in order back to the full input
(so they are non-overlapping and gap-free), and at least one slice is
returned.  The GUI segmenter instead falls back to the single slice
`[sound]` (whole waveform): still at least one slice covering the full
duration, but not 30-second windows. -/
theorem c2_fixed_fallback_amended (sound : List Int)
    (split : Nat → Int → List (List Int)) (msl : Nat) (st : Int)
    (hs : sound ≠ []) (h : retryChunks split msl st = []) :
    chooseChunks sound split msl st = fixedChunks 30000 sound ∧
    (chooseChunks sound split msl st).length = (sound.length + 30000 - 1) / 30000 ∧
    (chooseChunks sound split msl st).flatten = sound ∧
    1 ≤ (chooseChunks sound split msl st).length ∧
    (split msl st = [] → gui_chooseChunks sound split msl st = [sound]) := by
  have hc : chooseChunks sound split msl st = fixedChunks 30000 sound := by
    simp [chooseChunks, h]
  have hn : 0 < sound.length := List.length_pos.mpr hs
  refine ⟨hc, ?_, ?_, ?_, ?_⟩
  · rw [hc]; exact fixedChunks_length 30000 sound
  · rw [hc]; exact fixedChunks_join 30000 (by omega) sound
  · rw [hc, fixedChunks_length]
    rw [Nat.one_le_div_iff (by omega)]
    omega
  · intro hsp
    simp [gui_chooseChunks, hsp]

/-- Witness for the amended C2 theorem: a 2 ms waveform with a silence
detector that never finds a split point yields the single fixed chunk. -/
theorem c2_fixed_fallback_amended_witness :
    chooseChunks [5, 7] (fun _ _ => []) 500 (-40) = [[5, 7]] ∧
    (chooseChunks [5, 7] (fun _ _ => []) 500 (-40)).length = 1 := by
  have h := c2_fixed_fallback_amended [5, 7] (fun _ _ => []) 500 (-40)
    (by decide) (by decide)
  refine ⟨?_, ?_⟩
  · rw [h.1]; decide
  · rw [h.2.1]; decide

/-- C2 counterexample: a 60-second waveform (60000 ms) with no detectable
silence.  The claim demands ceiling(60/30) = 2 fixed slices; the GUI
segmenter (cited by the claim) returns the single whole-waveform slice. -/
theorem c2_gui_single_slice :
    gui_chooseChunks (List.replicate 60000 0) (fun _ _ => []) 500 (-40)
      = [List.replicate 60000 0] ∧
    (gui_chooseChunks (List.replicate 60000 0) (fun _ _ => []) 500 (-40)).length
      = 1 ∧
    (60000 + 30000 - 1) / 30000 = 2 := by
  have h0 : gui_chooseChunks (List.replicate 60000 0) (fun _ _ => []) 500 (-40)
      = [List.replicate 60000 0] := rfl
  refine ⟨h0, by rw [h0]; rfl, by norm_num⟩

/-- C6 (amended): the CLI segmenter retries with `min_silence_len=300` and
`silence_thresh=-35` exactly when the initial split gave fewer than two
slices, adopting the alternative exactly when it has strictly more slices;
with two or more initial slices no retry happens.  The GUI segmenter (also
cited by the claim) performs no such retry at all. -/
theorem c6_retry_amended (split : Nat → Int → List (List Int))
    (msl : Nat) (st : Int) :
    ((split msl st).length < 2 →
      retryChunks split msl st =
        (if (split 300 (-35)).length > (split msl st).length
          then split 300 (-35) else split msl st)) ∧
    (2 ≤ (split msl st).length → retryChunks split msl st = split msl st) := by
  constructor
  · intro h
    simp [retryChunks, h]
  · intro h
    have h2 : ¬ (split msl st).length < 2 := by omega
    simp [retryChunks, h2]

/-- Witness for the amended C6 theorem: one initial slice, two slices under
the relaxed parameters, so the alternative is adopted. -/
theorem c6_retry_amended_witness :
    retryChunks
      (fun msl st => if msl = 500 ∧ st = -40 then [[1]] else [[1], [2]])
      500 (-40) = [[1], [2]] := by
  have h := (c6_retry_amended
    (fun msl st => if msl = 500 ∧ st = -40 then [[1]] else [[1], [2]])
    500 (-40)).1 (by decide)
  rw [h]
  decide

/-- C6 counterexample: the claim (via its GUI citation) requires the
segmenter to retry when the initial split yields fewer than two slices and
to adopt the strictly larger alternative.  With an oracle whose default
split is `[[1]]` (one slice) and whose relaxed split is `[[1], [2]]` (two
slices), the GUI segmenter still returns the single initial slice. -/
theorem c6_gui_no_retry :
    gui_chooseChunks [1, 2, 3]
      (fun msl st => if msl = 500 ∧ st = -40 then [[1]] else [[1], [2]])
      500 (-40) = [[1]] ∧
    (fun (msl : Nat) (st : Int) =>
      if msl = 500 ∧ st = -40 then [[1]] else [([1] : List Int), [2]]) 300 (-35)
      = [[1], [2]] ∧
    ([[1]] : List (List Int)).length < ([[1], [2]] : List (List Int)).length := by
  refine ⟨by decide, by decide, by decide⟩

/-! ### Recognition dispatcher (per-chunk processing)

CLI variant: `audio_transcriber.py` lines 248–298.  Per chunk, the external
outcomes are:
  * `exportOk`     — `audio_chunk.export` + `sr.AudioFile`/`record` succeed
    (a failure here is caught by the per-chunk `except` and the chunk
    contributes nothing);
  * `primary`      — result of `primary_recognizer.recognize_google`:
    recognized text, `sr.UnknownValueError` (no discernible speech), or
    `sr.RequestError` (connectivity error);
  * `sphinxAvailable` — whether `recognize_sphinx` exists (otherwise the
    call raises `ImportError`/`AttributeError` and a second Google attempt
    with the adjusted backup recognizer is made);
  * `sphinxResult` / `googleRetryResult` — `some text` on success, `none`
    when the call raises (caught by the backup `except`: the chunk then
    contributes nothing).
-/

inductive PrimaryResult where
  | ok (text : String)
  | unknownValue
  | requestError
deriving Repr, DecidableEq

/-- Whether the primary recognizer returned text. -/
def PrimaryResult.isOk : PrimaryResult → Bool
  | .ok _ => true
  | _ => false

structure ChunkEnv where
  exportOk : Bool
  primary : PrimaryResult
  sphinxAvailable : Bool
  sphinxResult : Option String
  googleRetryResult : Option String
deriving Repr, DecidableEq

/-- The backup block of `audio_transcriber.py` lines 280–296: Sphinx if
available, otherwise a second Google attempt; `none` models the backup
raising (caught, chunk contributes nothing). -/
def backupAttempt (env : ChunkEnv) : Option String :=
  if env.sphinxAvailable then env.sphinxResult else env.googleRetryResult

/-- One iteration of the chunk loop of `audio_transcriber.py` lines 248–298.
Returns the text appended to `full_text` and whether the backup-recognition
block was entered (the `if not success:` branch, line 279). -/
def processChunk (env : ChunkEnv) : String × Bool :=
  if env.exportOk then
    match env.primary with
    | .ok t => (t ++ " ", false)
    | _ =>
      match backupAttempt env with
      | some t => (t ++ " ", true)
      | none => ("", true)
  else ("", false)

/-- C3 (amended): in the CLI dispatcher the secondary backend is attempted
exactly when the chunk was exported/recorded successfully and the primary
backend did not return text — that is, on a request/connectivity error or
on no-discernible-speech alike (not only on request errors, as the original
claim said); and when the secondary also fails the segment contributes
empty text, without aborting the job (the per-chunk function is total). -/
theorem c3_dispatcher_amended (env : ChunkEnv) :
    ((processChunk env).2 = true ↔
      env.exportOk = true ∧ env.primary.isOk = false) ∧
    (env.primary.isOk = false → backupAttempt env = none →
      (processChunk env).1 = "") := by
  constructor
  · cases hexp : env.exportOk
    · simp [processChunk, hexp]
    · cases hp : env.primary <;>
        simp [processChunk, hexp, PrimaryResult.isOk, hp] <;>
        cases hb : backupAttempt env <;> simp
  · intro hp hb
    cases hexp : env.exportOk
    · simp [processChunk, hexp]
    · cases hpr : env.primary
      · rw [hpr] at hp; simp [PrimaryResult.isOk] at hp
      · simp [processChunk, hexp, hpr, hb]
      · simp [processChunk, hexp, hpr, hb]

/-- Witness for the amended C3 theorem: a request error with both backups
failing contributes the empty string, and the backup block was entered. -/
theorem c3_dispatcher_amended_witness :
    (processChunk ⟨true, PrimaryResult.requestError, true, none, none⟩).1 = ""
    ∧ (processChunk ⟨true, PrimaryResult.requestError, true, none, none⟩).2
      = true := by
  constructor
  · exact (c3_dispatcher_amended
      ⟨true, PrimaryResult.requestError, true, none, none⟩).2 (by decide) rfl
  · exact ((c3_dispatcher_amended
      ⟨true, PrimaryResult.requestError, true, none, none⟩).1).mpr
      ⟨rfl, by decide⟩

/-- C3 counterexample: the claim says that when the primary backend reports
no discernible speech, empty text is accepted for the segment without
invoking the secondary backend.  In the code, `sr.UnknownValueError` leaves
`success = False`, so the backup block runs: with Sphinx available and
returning `"hello"`, the chunk contributes `"hello "` and the secondary
backend was invoked. -/
theorem c3_no_speech_invokes_backup :
    processChunk ⟨true, PrimaryResult.unknownValue, true, some "hello", none⟩
      = ("hello ", true) := rfl

/-! ### Transcript accumulation (`full_text`) and C9 -/

/-- The text a chunk appends to `full_text`. -/
def chunkText (env : ChunkEnv) : String := (processChunk env).1

/-- The `full_text` accumulation over the chunk loop of
`audio_transcriber.py` lines 242–298: starting from the empty string, each
chunk appends its contribution in loop (temporal) order. -/
def transcribe_loop (envs : List ChunkEnv) : String :=
  envs.foldl (fun acc env => acc ++ chunkText env) ""

/-- The return value `full_text.strip()` of the CLI `transcribe_large_audio`
(line 308). -/
def transcribe_large_audio_text (envs : List ChunkEnv) : String :=
  pyStrip (transcribe_loop envs)

theorem transcribe_loop_from (s : String) (envs : List ChunkEnv) :
    envs.foldl (fun acc env => acc ++ chunkText env) s
      = s ++ transcribe_loop envs := by
  induction envs generalizing s with
  | nil => simp [transcribe_loop, String.append_empty]
  | cons e rest ih =>
    rw [transcribe_loop]
    simp only [List.foldl_cons]
    rw [ih (s ++ chunkText e), ih ("" ++ chunkText e),
      String.empty_append, String.append_assoc]

theorem transcribe_loop_append (xs ys : List ChunkEnv) :
    transcribe_loop (xs ++ ys) = transcribe_loop xs ++ transcribe_loop ys := by
  rw [transcribe_loop, List.foldl_append]
  rw [show List.foldl (fun acc env => acc ++ chunkText env) "" xs
    = transcribe_loop xs from rfl]
  exact transcribe_loop_from _ ys

theorem transcribe_loop_single (e : ChunkEnv) :
    transcribe_loop [e] = chunkText e := by
  rw [transcribe_loop]
  simp only [List.foldl_cons, List.foldl_nil]
  exact String.empty_append _

/-- C9: the assembled transcript is the stripped concatenation of the
per-chunk contributions in original temporal (index) order — each successful
chunk contributes its recognized text followed by a single space, failed or
empty chunks contribute nothing — and for any two chunks `e` (earlier) and
`f` (later), whatever `e` contributes appears before whatever `f`
contributes, regardless of which chunks succeeded. -/
theorem c9_assembly_order :
    (∀ envs : List ChunkEnv,
      transcribe_large_audio_text envs = pyStrip ((envs.map chunkText).foldl
        (fun acc t => acc ++ t) "")) ∧
    (∀ (pre : List ChunkEnv) (e : ChunkEnv) (mid : List ChunkEnv)
        (f : ChunkEnv) (post : List ChunkEnv),
      transcribe_loop (pre ++ e :: (mid ++ f :: post)) =
        transcribe_loop pre ++ (chunkText e ++ (transcribe_loop mid ++
          (chunkText f ++ transcribe_loop post)))) := by
  constructor
  · intro envs
    rw [transcribe_large_audio_text, transcribe_loop, List.foldl_map]
  · intro pre e mid f post
    have h1 : pre ++ e :: (mid ++ f :: post)
        = pre ++ ([e] ++ (mid ++ ([f] ++ post))) := by simp
    rw [h1, transcribe_loop_append, transcribe_loop_append,
      transcribe_loop_append, transcribe_loop_append,
      transcribe_loop_single, transcribe_loop_single]

/-! ### Temporary chunk files and cleanup (C4)

CLI variant: `audio_transcriber.py` lines 242–306.  The loop appends
`temp_chunk_{i}.wav` to `chunk_files` for every chunk *before* attempting the
export (line 257), the export creates the file when it succeeds, and after
the loop every name in `chunk_files` gets a guarded removal attempt
(lines 300–306): `os.remove` when the file exists, with any removal error
caught and logged.
-/

/-- The `f"temp_chunk_{i}.wav"` name (line 256 CLI / line 180 GUI). -/
def chunkFilename (i : Nat) : String :=
  "temp_chunk_" ++ toString i ++ ".wav"

/-- The `chunk_files` list after the CLI loop over `n` chunks starting at
index `i`: the name of every chunk is recorded unconditionally (line 257). -/
def cli_names (i n : Nat) : List String :=
  (List.range n).map (fun k => chunkFilename (i + k))

/-- The chunk files actually created on disk: those whose export succeeded. -/
def cli_created (i : Nat) : List ChunkEnv → List String
  | [] => []
  | env :: rest =>
    (if env.exportOk then [chunkFilename i] else []) ++ cli_created (i + 1) rest

/-- The files still existing after the CLI cleanup loop (lines 300–306): a
created file survives only if it was never successfully removed — removal of
`f` happens when `f` is listed in `chunk_files`, exists, and `os.remove f`
succeeds; removal failures are caught (logged), never raised. -/
def cli_after_cleanup (created names : List String)
    (removeOk : String → Bool) : List String :=
  created.filter (fun f => !(names.contains f && removeOk f))

theorem cli_names_cons (i n : Nat) :
    cli_names i (n + 1) = chunkFilename i :: cli_names (i + 1) n := by
  rw [cli_names, List.range_succ_eq_map]
  simp only [List.map_cons, List.map_map]
  congr 1
  rw [cli_names]
  apply List.map_congr_left
  intro k _
  simp only [Function.comp_apply]
  congr 1
  omega

theorem cli_created_mem_names (envs : List ChunkEnv) :
    ∀ (i : Nat) (f : String), f ∈ cli_created i envs → f ∈ cli_names i envs.length := by
  induction envs with
  | nil => intro i f h; simp [cli_created] at h
  | cons env rest ih =>
    intro i f h
    rw [List.length_cons, cli_names_cons]
    rw [cli_created] at h
    rcases List.mem_append.mp h with h1 | h2
    · rcases env.exportOk with _ | _ <;> simp_all
    · exact List.mem_cons_of_mem _ (ih (i + 1) f h2)

/-- The GUI chunk loop (`audio_transcriber_gui.py` lines 172–199) with its
filesystem effects.  Arguments per chunk: the primary recognition outcome
(the GUI has no backup recognizer) and whether `os.remove` succeeds — the
removal is *not* guarded by a `try`, so a failing removal raises out of the
loop.  The state is (next index, accumulated `full_text`, files currently on
disk); the result pairs the outcome (`Except`, since exceptions propagate)
with the files left on disk. -/
def gui_loop : List (PrimaryResult × Bool) → Nat → String → List String →
    Except String String × List String
  | [], _, acc, fs => (Except.ok acc, fs)
  | (p, removeOk) :: rest, i, acc, fs =>
    let fs1 := fs ++ [chunkFilename i]
    let acc1 := acc ++ (match p with | .ok t => t ++ " " | _ => "")
    if removeOk then gui_loop rest (i + 1) acc1 (fs1.erase (chunkFilename i))
    else (Except.error ("failed to remove " ++ chunkFilename i), fs1)

/-- C4 counterexample: the claim says removal failures are logged but do not
raise, and every per-slice exported file is removed by the end of the job
whether it succeeds or fails.  In the GUI loop (cited by the claim) a single
chunk whose recognition succeeded but whose `os.remove` fails makes the job
raise, with `temp_chunk_0.wav` left on disk. -/
theorem c4_gui_remove_raises :
    gui_loop [(PrimaryResult.ok "hi", false)] 0 "" [] =
      (Except.error "failed to remove temp_chunk_0.wav",
        ["temp_chunk_0.wav"]) := rfl

/-! ### Top-level job (`transcribe_audio`)

CLI variant: `audio_transcriber.py` lines 310–442.  The filesystem and the
downstream stages appear as oracles in `JobEnv`:
  * `isDir` / `listing` / `isFile` — `os.path.isdir`, the directory entries
    seen by the `glob.glob` calls, and `os.path.isfile`;
  * `conv`         — outcomes for the guarded `convert_to_wav` call;
  * `tla`          — the transcription text returned by
    `transcribe_large_audio` per `(min_silence_len, silence_thresh)`;
  * `saveOk` / `backupSaveOk` — whether `open(output_path, "w")` and
    `open(backup_output_path, "w")` succeed;
  * `removeOk`     — per-file `os.remove` outcomes for the temp cleanup;
  * `copyOk`       — whether the final `shutil.copy2` succeeds;
  * `home` / `now` — `os.path.expanduser("~")` and `int(time.time())`;
  * `unexpected`   — whether some unguarded call in the body raises after
    input validation (caught by the outer `except`, lines 428–442).
-/

structure JobEnv where
  isDir : Bool
  listing : List String
  isFile : String → Bool
  conv : ConvAttempts
  tla : Nat → Int → String
  saveOk : Bool
  backupSaveOk : Bool
  removeOk : String → Bool
  copyOk : Bool
  home : String
  now : Nat
  unexpected : Bool

/-- The supported extensions scanned by the directory branch
(`audio_transcriber.py` line 333). -/
def audio_extensions : List String :=
  [".wav", ".mp3", ".m4a", ".flac", ".aac", ".ogg"]

/-- The `audio_files` list built by the `glob` loop (lines 332–334): for each
extension in order, all directory entries carrying it, in directory order. -/
def findAudioFiles (listing : List String) : List String :=
  audio_extensions.foldl
    (fun acc ext => acc ++ listing.filter (fun f => pyEndsWith f ext)) []

/-- Input selection of `transcribe_audio` (lines 329–341): a directory is
scanned and the first found audio file is used; an empty scan aborts the
job. -/
def selectAudio (audio_path : String) (env : JobEnv) : Option String :=
  if env.isDir then
    match findAudioFiles env.listing with
    | [] => none
    | f :: _ => some f
  else some audio_path

/-- The transcription call with its single empty-result retry
(`audio_transcriber.py` lines 370–377): run `transcribe_large_audio` with
the default parameters `(500, -40)`; if the stripped result is empty, run it
once more with the relaxed parameters `(300, -35)` and accept that result.
Returns the list of parameter pairs actually run, and the final text. -/
def transcription_runs (tla : Nat → Int → String) :
    List (Nat × Int) × String :=
  let t1 := tla 500 (-40)
  if pyStrip t1 = "" then ([(500, -40), (300, -35)], tla 300 (-35))
  else ([(500, -40)], t1)

/-- Observable outcome of one CLI `transcribe_audio` job: the returned
output path (`none` on abort/failure), which persistence stage succeeded,
whether the copy-back was attempted, the parameter sets run, and the
temporary conversion files attempted for removal / still remaining. -/
structure JobTrace where
  result : Option String
  savedPrimary : Bool
  savedBackup : Bool
  printedOnly : Bool
  copyAttempted : Bool
  runs : List (Nat × Int)
  tempAttempts : List String
  tempRemaining : List String
deriving Repr, DecidableEq

/-- The trace of a job that aborted during input validation. -/
def abortedTrace : JobTrace := ⟨none, false, false, false, false, [], [], []⟩

/-- The fallback output path
`os.path.join(os.path.expanduser("~"), f"audio_transcription_{int(time.time())}.txt")`
(lines 364–367). -/
def backupPath (env : JobEnv) : String :=
  env.home ++ "/audio_transcription_" ++ toString env.now ++ ".txt"

/-- The default output name `f"{base_name}_transcription.txt"`
(lines 359–361 CLI, 213–215 GUI). -/
def defaultOutputPath (path : String) : String :=
  splitextRoot (basename path) ++ "_transcription.txt"

/-- CLI `transcribe_audio` (`audio_transcriber.py` lines 310–442), with its
observable effects.  The body follows the source order: input selection and
validation (329–346), guarded conversion (349–356) recording the converted
file as a temporary (351–352), default/backup output paths (358–367),
transcription with one empty-result retry (370–377), the save chain
primary → backup → console (379–403), the guarded temp cleanup (405–411),
and the best-effort copy-back to the originally requested path when the
backup location was used (416–424).  The outer `except` (428–442) catches
an `unexpected` failure, performs the same guarded temp cleanup, and yields
no output path. -/
def transcribe_audio_trace (audio_path : String) (output_path? : Option String)
    (env : JobEnv) : JobTrace :=
  match selectAudio audio_path env with
  | none => abortedTrace
  | some path =>
    if env.isFile path = false then abortedTrace
    else
      let wav_path := convert_to_wav path env.conv
      let temp_files := if wav_path ≠ path then [wav_path] else []
      if env.unexpected then
        { abortedTrace with
            tempAttempts := temp_files
            tempRemaining := temp_files.filter (fun f => !env.removeOk f) }
      else
        let out0 := if pyTruthy output_path? then output_path?.getD ""
          else defaultOutputPath path
        let savedBackup := !env.saveOk && env.backupSaveOk
        let out1 := if env.saveOk then out0
          else if env.backupSaveOk then backupPath env else out0
        let copyAttempted := savedBackup && pyTruthy output_path?
        { result := some (if copyAttempted && env.copyOk
            then output_path?.getD "" else out1)
          savedPrimary := env.saveOk
          savedBackup := savedBackup
          printedOnly := !env.saveOk && !env.backupSaveOk
          copyAttempted := copyAttempted
          runs := (transcription_runs env.tla).1
          tempAttempts := temp_files
          tempRemaining := temp_files.filter (fun f => !env.removeOk f) }

/-- The return value of the CLI `transcribe_audio`. -/
def transcribe_audio (audio_path : String) (output_path? : Option String)
    (env : JobEnv) : Option String :=
  (transcribe_audio_trace audio_path output_path? env).result

/-- GUI `transcribe_audio` (`audio_transcriber_gui.py` lines 203–235).  No
`try`/`except` anywhere: a conversion failure, a failing
`open(output_path, "w")`, or a failing `os.remove(wav_path)` propagates to
the caller. -/
def gui_transcribe_audio (audio_path : String) (output_path? : Option String)
    (pydubOk saveOk removeOk : Bool) : Except String String :=
  match convert_to_wav_gui audio_path pydubOk with
  | Except.error e => Except.error e
  | Except.ok wav_path =>
    let out := if pyTruthy output_path? then output_path?.getD ""
      else defaultOutputPath audio_path
    if saveOk then
      if wav_path ≠ audio_path ∧ removeOk = false then
        Except.error "failed to remove converted file"
      else Except.ok out
    else Except.error "failed to write transcription"

/-- C7: the transcription stage re-runs the pipeline exactly once, with the
relaxed parameters `(300, -35)`, precisely when the joined transcript of the first pass is empty after stripping, accepting the second (possibly still
empty) result; a non-empty first result is accepted without any re-run. -/
theorem c7_empty_retry (tla : Nat → Int → String) :
    (pyStrip (tla 500 (-40)) = "" →
      transcription_runs tla = ([(500, -40), (300, -35)], tla 300 (-35))) ∧
    (pyStrip (tla 500 (-40)) ≠ "" →
      transcription_runs tla = ([(500, -40)], tla 500 (-40))) := by
  constructor
  · intro h
    simp [transcription_runs, h]
  · intro h
    simp [transcription_runs, h]

/-- Witness for the C7 theorem: an always-empty pipeline is run twice (the
second time with the relaxed parameters); a non-empty one only once. -/
theorem c7_empty_retry_witness :
    transcription_runs (fun _ _ => "") = ([(500, -40), (300, -35)], "") ∧
    transcription_runs (fun _ _ => "hi") = ([(500, -40)], "hi") :=
  ⟨(c7_empty_retry (fun _ _ => "")).1 (by decide),
    (c7_empty_retry (fun _ _ => "hi")).2 (by decide)⟩

/-- C8: the CLI `transcribe_audio` returns no output path exactly when the
input is invalid — a directory with no supported audio file, or a selected
path that is not a file — or when an unexpected failure occurs in the body
(caught by the outer handler, which cleans up and returns `None` rather than
propagating); in every other case it returns an output path.  The model is a
total function, reflecting that no exception escapes `transcribe_audio`. -/
theorem c8_none_iff_invalid_or_unexpected (p : String) (out : Option String)
    (env : JobEnv) :
    transcribe_audio p out env = none ↔
      (env.isDir = true ∧ findAudioFiles env.listing = []) ∨
      (∃ f, selectAudio p env = some f ∧ env.isFile f = false) ∨
      env.unexpected = true := by
  unfold transcribe_audio transcribe_audio_trace selectAudio
  cases hd : env.isDir with
  | false =>
    simp only [Bool.false_eq_true, if_false]
    cases hf : env.isFile p with
    | false => simp [abortedTrace, hf]
    | true =>
      cases hu : env.unexpected with
      | false => simp [abortedTrace, hf, hu]
      | true => simp [abortedTrace, hf, hu]
  | true =>
    cases hfa : findAudioFiles env.listing with
    | nil => simp [abortedTrace]
    | cons f rest =>
      simp only [if_true]
      cases hf : env.isFile f with
      | false => simp [abortedTrace, hf]
      | true =>
        cases hu : env.unexpected with
        | false => simp [abortedTrace, hf, hu]
        | true => simp [abortedTrace, hf, hu]

/-- C10: when `transcribe_audio` is handed a directory containing at least
one file with a supported audio extension, the job behaves exactly as if it
had been handed the first file of the scan directly — it transcribes only
that file, ignoring the rest of the directory (the right side of the trace equality
 does not depend on the remaining scan results) — and, when that file is
a valid file and nothing unexpected happens, an output path is returned.
Only a directory with no matching file aborts with no output path. -/
theorem c10_directory_pick (p : String) (out : Option String) (env : JobEnv) :
    (∀ (f : String) (rest : List String), env.isDir = true →
      findAudioFiles env.listing = f :: rest →
      transcribe_audio_trace p out env
        = transcribe_audio_trace f out { env with isDir := false } ∧
      (env.isFile f = true → env.unexpected = false →
        (transcribe_audio p out env).isSome = true)) ∧
    (env.isDir = true → findAudioFiles env.listing = [] →
      transcribe_audio p out env = none) := by
  constructor
  · intro f rest hdir hfind
    have h1 : selectAudio p env = some f := by
      simp [selectAudio, hdir, hfind]
    have h2 : selectAudio f { env with isDir := false } = some f := by
      simp [selectAudio]
    constructor
    · unfold transcribe_audio_trace
      rw [h1, h2]
      rfl
    · intro hf hu
      unfold transcribe_audio transcribe_audio_trace
      rw [h1]
      simp [hf, hu]
  · intro hdir hempty
    unfold transcribe_audio transcribe_audio_trace
    simp [selectAudio, hdir, hempty, abortedTrace]

/-- Witness for the C10 theorem: a directory listing holding a text file, an
mp3 and a wav; the scan picks the wav (extension scan order) and the job
returns an output path. -/
theorem c10_directory_pick_witness :
    (transcribe_audio "somedir" none
      { isDir := true, listing := ["notes.txt", "b.mp3", "a.wav"],
        isFile := fun _ => true, conv := ⟨true, true, true, 1, true⟩,
        tla := fun _ _ => "hi", saveOk := true, backupSaveOk := true,
        removeOk := fun _ => true, copyOk := true, home := "/home/user",
        now := 7, unexpected := false }).isSome = true :=
  ((c10_directory_pick "somedir" none _).1 "a.wav" ["b.mp3"] rfl
    (by decide)).2 rfl rfl

/-- C5 (amended): in the CLI flow the assembler persists to the target path;
on a write failure it persists to the fallback path under the home directory of the user
; on failure of that too it surfaces the text on the console
instead of a file; and the best-effort copy-back to the originally requested
path is attempted exactly when the fallback was used and a target path was
originally requested (the code checks only that a target was requested, not
that it is distinct — which every distinct requested target satisfies).
None of these failures raise: the model is total.  The GUI assembler (also
cited by the claim) has no fallback: a write failure propagates to its
caller. -/
theorem c5_persist_chain (p : String) (out : Option String) (env : JobEnv)
    (f : String) (hsel : selectAudio p env = some f)
    (hfile : env.isFile f = true) (hun : env.unexpected = false) :
    (transcribe_audio_trace p out env).savedPrimary = env.saveOk ∧
    (transcribe_audio_trace p out env).savedBackup
      = (!env.saveOk && env.backupSaveOk) ∧
    (transcribe_audio_trace p out env).printedOnly
      = (!env.saveOk && !env.backupSaveOk) ∧
    (transcribe_audio_trace p out env).copyAttempted
      = (!env.saveOk && env.backupSaveOk && pyTruthy out) ∧
    (env.saveOk = false → env.backupSaveOk = true →
      (pyTruthy out && env.copyOk) = false →
      transcribe_audio p out env = some (backupPath env)) ∧
    (env.saveOk = true →
      transcribe_audio p out env
        = some (if pyTruthy out then out.getD "" else defaultOutputPath f)) := by
  unfold transcribe_audio transcribe_audio_trace
  rw [hsel]
  simp only [hfile, hun, Bool.true_eq_false, if_false, Bool.false_eq_true]
  refine ⟨by simp, by simp, by simp, by simp, ?_, ?_⟩
  · intro h1 h2 h3
    simp [h1, h2, h3]
  · intro h1
    simp [h1]

/-- Witness for the amended C5 theorem: the primary write fails, the backup
write succeeds, the copy-back fails, so the job reports the fallback path
under the home directory. -/
theorem c5_persist_chain_witness :
    transcribe_audio "talk.wav" (some "/ro/out.txt")
      { isDir := false, listing := [], isFile := fun _ => true,
        conv := ⟨true, true, true, 1, true⟩, tla := fun _ _ => "hi",
        saveOk := false, backupSaveOk := true, removeOk := fun _ => true,
        copyOk := false, home := "/home/user", now := 7,
        unexpected := false }
      = some "/home/user/audio_transcription_7.txt" := by
  have h := (c5_persist_chain "talk.wav" (some "/ro/out.txt")
      { isDir := false, listing := [], isFile := fun _ => true,
        conv := ⟨true, true, true, 1, true⟩, tla := fun _ _ => "hi",
        saveOk := false, backupSaveOk := true, removeOk := fun _ => true,
        copyOk := false, home := "/home/user", now := 7,
        unexpected := false }
      "talk.wav" rfl rfl rfl).2.2.2.2.1 rfl rfl (by decide)
  rw [h]
  rfl

/-- C5 counterexample: the claim says a write failure degrades to the
fallback path without raising, but the GUI `transcribe_audio` (cited by the
claim) has no fallback: with the target write failing, it raises to its
caller instead of persisting anywhere else. -/
theorem c5_gui_save_raises :
    gui_transcribe_audio "talk.wav" (some "out.txt") true false true
      = Except.error "failed to write transcription" := rfl

/-- C4 (amended): in the CLI flow, every temporary file gets a (guarded)
removal attempt by the end of the job.  For the per-segment chunk files:
the name of every created file is in the `chunk_files` list iterated by the
cleanup — regardless of the recognition outcome of each chunk, which the
bookkeeping does not consult — removal failures are caught, and when all
removals succeed no chunk file remains.  For the converted waveform file:
the temp-removal attempts of the job are exactly the conversion temporary,
whether the job succeeds or fails unexpectedly, and with removals
succeeding nothing remains.  In the GUI flow removals are unguarded: a
removal failure raises, aborting the job with the file still on disk. -/
theorem c4_cleanup_amended (envs : List ChunkEnv) (removeOk : String → Bool) :
    (∀ f, f ∈ cli_created 0 envs → f ∈ cli_names 0 envs.length) ∧
    ((∀ f, removeOk f = true) →
      cli_after_cleanup (cli_created 0 envs) (cli_names 0 envs.length)
        removeOk = []) ∧
    (∀ (p f : String) (out : Option String) (env : JobEnv),
      selectAudio p env = some f → env.isFile f = true →
      (transcribe_audio_trace p out env).tempAttempts
        = (if convert_to_wav f env.conv ≠ f
            then [convert_to_wav f env.conv] else []) ∧
      ((∀ g, env.removeOk g = true) →
        (transcribe_audio_trace p out env).tempRemaining = [])) := by
  refine ⟨fun f h => cli_created_mem_names envs 0 f h, ?_, ?_⟩
  · intro hall
    rw [cli_after_cleanup, List.filter_eq_nil_iff]
    intro f hf
    have hmem : f ∈ cli_names 0 envs.length := cli_created_mem_names envs 0 f hf
    simp [List.elem_iff, hall f]
    exact hmem
  · intro p f out env hsel hfile
    unfold transcribe_audio_trace
    rw [hsel]
    simp only [hfile, Bool.true_eq_false, if_false]
    cases hu : env.unexpected with
    | false =>
      constructor
      · simp
      · intro hall
        simp [List.filter_eq_nil_iff, hall]
    | true =>
      constructor
      · simp
      · intro hall
        simp [List.filter_eq_nil_iff, hall]

/-- Witness for the amended C4 theorem: two chunks, the first exported and
the second failing export; with all removals succeeding, nothing remains.
At job level, the conversion of `mix.mp3` succeeds and the converted file
is attempted for removal, leaving nothing behind. -/
theorem c4_cleanup_amended_witness :
    cli_after_cleanup
      (cli_created 0 [⟨true, PrimaryResult.ok "a", false, none, none⟩,
        ⟨false, PrimaryResult.requestError, false, none, none⟩])
      (cli_names 0 2) (fun _ => true) = [] ∧
    (transcribe_audio_trace "mix.mp3" none
      { isDir := false, listing := [], isFile := fun _ => true,
        conv := ⟨true, true, true, 1, true⟩, tla := fun _ _ => "hi",
        saveOk := true, backupSaveOk := true, removeOk := fun _ => true,
        copyOk := true, home := "/home/user", now := 7,
        unexpected := false }).tempRemaining = [] := by
  constructor
  · exact (c4_cleanup_amended
      [⟨true, PrimaryResult.ok "a", false, none, none⟩,
        ⟨false, PrimaryResult.requestError, false, none, none⟩]
      (fun _ => true)).2.1 (fun _ => rfl)
  · exact ((c4_cleanup_amended [] (fun _ => true)).2.2 "mix.mp3" "mix.mp3" none
      { isDir := false, listing := [], isFile := fun _ => true,
        conv := ⟨true, true, true, 1, true⟩, tla := fun _ _ => "hi",
        saveOk := true, backupSaveOk := true, removeOk := fun _ => true,
        copyOk := true, home := "/home/user", now := 7,
        unexpected := false } rfl rfl).2 (fun _ => rfl)
